import Mathlib

/-!
Verification of the SceneManager texture registry, material registry and
transform composer from `Source/SceneManager.cpp` of the CS330 final-project
milestones repository.

The stateful C++ class is embedded shallowly: the registry members
(`m_textureIDs` with its running counter `m_loadedTextures`, and
`m_objectMaterials`) become explicit state values, OpenGL and stb_image
calls become parameters (the decoded image, the handles produced by
`glGenTextures`) and recorded effect traces (the format passed to
`glTexImage2D`, the array index written, the texture-unit bindings, the
handles passed to `glDeleteTextures`), and the glm matrix algebra is
embedded as 4x4 real matrices.
-/

namespace SceneMgr

/-- 3-component vector with named fields, mirroring `glm::vec3` access as
`.x`, `.y`, `.z`. -/
structure Vec3 (α : Type) where
  x : α
  y : α
  z : α
deriving DecidableEq, Repr

/-- Entry of the texture registry `m_textureIDs`: a generated texture handle
`ID` (a `GLuint`) together with the caller-chosen `tag` string. -/
structure TEXTURE_INFO where
  ID : Nat
  tag : String
deriving DecidableEq, Repr

/-- Texture-registry portion of the `SceneManager` state. The list holds the
registered entries in registration order; the running counter
`m_loadedTextures` of the source is the list's length (see
`m_loadedTextures` below). -/
structure TextureState where
  m_textureIDs : List TEXTURE_INFO
deriving DecidableEq, Repr

/-- Running counter of registered textures, `m_loadedTextures` in the source:
always the number of entries filled so far. -/
def m_loadedTextures (st : TextureState) : Nat :=
  st.m_textureIDs.length

/-- Material record from `SceneManager.h`'s `OBJECT_MATERIAL`, with the fields
the source reads and writes: ambient color/strength, diffuse and specular
colors, shininess, and the lookup tag. Color components and scalars are
embedded as rationals. -/
structure OBJECT_MATERIAL where
  ambientColor : Vec3 ℚ
  ambientStrength : ℚ
  diffuseColor : Vec3 ℚ
  specularColor : Vec3 ℚ
  shininess : ℚ
  tag : String
deriving DecidableEq, Repr

/-- Image-format constant chosen by `CreateGLTexture` and passed to
`glTexImage2D`: `GL_RGB` for 3 color channels, `GL_RGBA` for 4. -/
inductive GLFormat where
  | RGB : GLFormat
  | RGBA : GLFormat
deriving DecidableEq, Repr

/-- Result of a decoded image as reported by `stbi_load`: width, height and
channel count (C `int`s). The pixel data itself is opaque to the logic being
verified. -/
structure ImageData where
  width : Int
  height : Int
  colorChannels : Int
deriving DecidableEq, Repr

/-- Observable outcome of one `CreateGLTexture` call: the boolean return
value, the texture registry afterwards, the format passed to `glTexImage2D`
(`none` when no upload happened), and the registry-array index written
(`none` when nothing was registered). -/
structure CreateResult where
  result : Bool
  state : TextureState
  format : Option GLFormat
  writeIndex : Option Nat
deriving DecidableEq, Repr

/-- Modelled from the spec: the compile-time size of the `m_textureIDs` slot
array. The header `SceneManager.h` declaring the array is not among the
sources; the spec and the source comments ("There are up to 16 slots",
"there are a total of 16 available slots for scene textures") fix it at 16. -/
def maxTextures : Nat := 16

/-- Embedding of `SceneManager::CreateGLTexture` (SceneManager.cpp:61-125).
The decode result of `stbi_load` and the handle produced by `glGenTextures`
are parameters. On a successful decode with 3 (resp. 4) color channels the
image is uploaded as `GL_RGB` (resp. `GL_RGBA`), the pair {handle, tag} is
written at array index `m_loadedTextures`, the counter advances, and `true`
is returned; any other channel count, or a failed decode, returns `false`
and registers nothing. The source performs no capacity check before the
array write: the model records the written index verbatim. -/
def CreateGLTexture (image : Option ImageData) (textureID : Nat) (tag : String)
    (st : TextureState) : CreateResult :=
  match image with
  | none => ⟨false, st, none, none⟩
  | some img =>
    if img.colorChannels = 3 then
      ⟨true, ⟨st.m_textureIDs ++ [⟨textureID, tag⟩]⟩, some GLFormat.RGB,
        some st.m_textureIDs.length⟩
    else if img.colorChannels = 4 then
      ⟨true, ⟨st.m_textureIDs ++ [⟨textureID, tag⟩]⟩, some GLFormat.RGBA,
        some st.m_textureIDs.length⟩
    else
      ⟨false, st, none, none⟩

/-- Loop body of `SceneManager::BindGLTextures` (SceneManager.cpp:133-141):
for each `i` below the counter, `glActiveTexture(GL_TEXTURE0 + i)` then
`glBindTexture` of entry `i`'s handle. The trace records each
(texture unit, handle) pair in loop order. -/
def BindGLTexturesGo (unit : Nat) : List TEXTURE_INFO → List (Nat × Nat)
  | [] => []
  | e :: rest => (unit, e.ID) :: BindGLTexturesGo (unit + 1) rest

/-- Embedding of `SceneManager::BindGLTextures`: the sequence of
(texture unit, handle) bindings it issues, starting at unit 0. -/
def BindGLTextures (st : TextureState) : List (Nat × Nat) :=
  BindGLTexturesGo 0 st.m_textureIDs

/-- Loop body of `SceneManager::DestroyGLTextures` (SceneManager.cpp:149-155):
for each `i` below the counter it calls `glGenTextures(1, &m_textureIDs[i].ID)`,
overwriting the stored handle with a freshly generated one. `newIDs i` is the
handle produced by the i-th `glGenTextures` call. -/
def DestroyGLTexturesGo (newIDs : Nat → Nat) (i : Nat) :
    List TEXTURE_INFO → List TEXTURE_INFO
  | [] => []
  | e :: rest => ⟨newIDs i, e.tag⟩ :: DestroyGLTexturesGo newIDs (i + 1) rest

/-- Embedding of `SceneManager::DestroyGLTextures`: returns the registry
afterwards together with the trace of handles passed to `glDeleteTextures`
(the source issues no `glDeleteTextures` call, so that trace is empty). -/
def DestroyGLTextures (newIDs : Nat → Nat) (st : TextureState) :
    TextureState × List Nat :=
  (⟨DestroyGLTexturesGo newIDs 0 st.m_textureIDs⟩, [])

/-- Scan loop of `SceneManager::FindTextureID` (SceneManager.cpp:163-181):
first entry whose tag compares equal wins and its handle is returned as a C
`int`; reaching the counter leaves the initial value -1. -/
def FindTextureIDScan (tag : String) : List TEXTURE_INFO → Int
  | [] => -1
  | e :: rest => if e.tag = tag then (e.ID : Int) else FindTextureIDScan tag rest

/-- Embedding of `SceneManager::FindTextureID`. -/
def FindTextureID (st : TextureState) (tag : String) : Int :=
  FindTextureIDScan tag st.m_textureIDs

/-- Scan loop of `SceneManager::FindTextureSlot` (SceneManager.cpp:189-207):
first entry whose tag compares equal wins and its index is returned;
reaching the counter leaves the initial value -1. -/
def FindTextureSlotScan (tag : String) (index : Nat) : List TEXTURE_INFO → Int
  | [] => -1
  | e :: rest =>
    if e.tag = tag then (index : Int) else FindTextureSlotScan tag (index + 1) rest

/-- Embedding of `SceneManager::FindTextureSlot`. -/
def FindTextureSlot (st : TextureState) (tag : String) : Int :=
  FindTextureSlotScan tag 0 st.m_textureIDs

/-- Scan loop of `SceneManager::FindMaterial` (SceneManager.cpp:224-237): at
the first entry whose tag compares equal, copy that entry's diffuse color,
specular color and shininess into the out-parameter and stop; otherwise
advance. No other field of the out-parameter is touched. -/
def FindMaterialScan (tag : String) :
    List OBJECT_MATERIAL → OBJECT_MATERIAL → OBJECT_MATERIAL
  | [], material => material
  | m :: rest, material =>
    if m.tag = tag then
      { material with
          diffuseColor := m.diffuseColor
          specularColor := m.specularColor
          shininess := m.shininess }
    else
      FindMaterialScan tag rest material

/-- Embedding of `SceneManager::FindMaterial` (SceneManager.cpp:215-240):
returns the boolean result together with the out-parameter's final value.
An empty registry returns `false` at once; a non-empty registry runs the
scan and then returns `true` unconditionally. -/
def FindMaterial (tag : String) (mats : List OBJECT_MATERIAL)
    (material : OBJECT_MATERIAL) : Bool × OBJECT_MATERIAL :=
  if mats.length = 0 then
    (false, material)
  else
    (true, FindMaterialScan tag mats material)

/-- Concrete material mirroring `metalMaterial` from `DefineObjectMaterials`
(SceneManager.cpp:410-417), used as a concrete witness input. -/
def sampleMetal : OBJECT_MATERIAL :=
  ⟨⟨1/4, 1/4, 1/4⟩, 1/2, ⟨2/5, 2/5, 2/5⟩, ⟨1, 1, 1⟩, 128, "metal"⟩

/-- Concrete material mirroring `floorMaterial` from `DefineObjectMaterials`
(SceneManager.cpp:419-426), used as a concrete witness input. -/
def sampleFloor : OBJECT_MATERIAL :=
  ⟨⟨3/10, 1/5, 1/10⟩, 1/2, ⟨3/5, 2/5, 1/5⟩, ⟨1/2, 1/2, 1/2⟩, 32, "floor"⟩

/-- Concrete zero-initialized material standing for the caller's
out-parameter before the call, used as a concrete witness input. -/
def emptyMaterial : OBJECT_MATERIAL :=
  ⟨⟨0, 0, 0⟩, 0, ⟨0, 0, 0⟩, ⟨0, 0, 0⟩, 0, ""⟩

lemma FindMaterialScan_untouched (tag : String) (l : List OBJECT_MATERIAL)
    (m : OBJECT_MATERIAL) :
    (FindMaterialScan tag l m).ambientColor = m.ambientColor ∧
    (FindMaterialScan tag l m).ambientStrength = m.ambientStrength ∧
    (FindMaterialScan tag l m).tag = m.tag := by
  induction l with
  | nil => exact ⟨rfl, rfl, rfl⟩
  | cons e rest ih =>
    by_cases h : e.tag = tag
    · simp [FindMaterialScan, h]
    · simpa [FindMaterialScan, h] using ih

lemma FindMaterialScan_no_match (tag : String) (l : List OBJECT_MATERIAL)
    (m : OBJECT_MATERIAL) (h : ∀ e ∈ l, e.tag ≠ tag) :
    FindMaterialScan tag l m = m := by
  induction l with
  | nil => rfl
  | cons e rest ih =>
    have he : e.tag ≠ tag := h e (List.mem_cons_self e rest)
    simp only [FindMaterialScan, he, if_false]
    exact ih (fun e' he' => h e' (List.mem_cons_of_mem e he'))

lemma FindMaterialScan_first_match (tag : String) (l : List OBJECT_MATERIAL)
    (m : OBJECT_MATERIAL) (i : Nat) (h : i < l.length)
    (htag : (l.get ⟨i, h⟩).tag = tag)
    (hfirst : ∀ j (hj : j < i), (l.get ⟨j, lt_trans hj h⟩).tag ≠ tag) :
    (FindMaterialScan tag l m).diffuseColor = (l.get ⟨i, h⟩).diffuseColor ∧
    (FindMaterialScan tag l m).specularColor = (l.get ⟨i, h⟩).specularColor ∧
    (FindMaterialScan tag l m).shininess = (l.get ⟨i, h⟩).shininess := by
  induction l generalizing i with
  | nil => exact absurd h (Nat.not_lt_zero i)
  | cons e rest ih =>
    cases i with
    | zero =>
      simp only [List.get] at htag
      simp [FindMaterialScan, htag]
    | succ j =>
      have he : e.tag ≠ tag := hfirst 0 (Nat.succ_pos j)
      simp only [FindMaterialScan, he, if_false]
      exact ih j (Nat.lt_of_succ_lt_succ h) htag
        (fun k hk => hfirst (k + 1) (Nat.succ_lt_succ hk))

/-- C1: `FindMaterial` returns false on an empty registry, and returns true
on any non-empty registry, even when no entry's tag matches the requested
tag. -/
theorem FindMaterial_success_iff_nonempty (tag : String) (m : OBJECT_MATERIAL)
    (mats : List OBJECT_MATERIAL) :
    (FindMaterial tag [] m).1 = false ∧
    (mats ≠ [] → (FindMaterial tag mats m).1 = true) := by
  refine ⟨rfl, fun h => ?_⟩
  have hl : mats.length ≠ 0 := by
    simpa [List.length_eq_zero] using h
  simp [FindMaterial, hl]

/-- Witness for C1 at a concrete input: a registry holding only the metal
material reports success for the unmatched tag "glass". -/
theorem FindMaterial_success_iff_nonempty_w :
    (FindMaterial "glass" [sampleMetal] emptyMaterial).1 = true :=
  (FindMaterial_success_iff_nonempty "glass" emptyMaterial [sampleMetal]).2
    (by decide)

/-- C3: when some registered entry carries the requested tag, the values
written to the out-parameter (diffuse color, specular color, shininess) are
those of the first-registered entry with that tag; on an empty registry
`FindMaterial` reports not-found. -/
theorem FindMaterial_first_occurrence (tag : String)
    (mats : List OBJECT_MATERIAL) (m : OBJECT_MATERIAL) :
    (FindMaterial tag [] m).1 = false ∧
    ∀ i (h : i < mats.length), (mats.get ⟨i, h⟩).tag = tag →
      (∀ j (hj : j < i), (mats.get ⟨j, lt_trans hj h⟩).tag ≠ tag) →
        (FindMaterial tag mats m).2.diffuseColor = (mats.get ⟨i, h⟩).diffuseColor ∧
        (FindMaterial tag mats m).2.specularColor = (mats.get ⟨i, h⟩).specularColor ∧
        (FindMaterial tag mats m).2.shininess = (mats.get ⟨i, h⟩).shininess := by
  refine ⟨rfl, fun i h htag hfirst => ?_⟩
  have hl : mats.length ≠ 0 := by omega
  simp only [FindMaterial, hl, if_false]
  exact FindMaterialScan_first_match tag mats m i h htag hfirst

/-- Witness for C3 at a concrete input: with the metal material registered
before the floor material, looking up "floor" copies the floor material's
values (the entry at index 1, index 0 not matching). -/
theorem FindMaterial_first_occurrence_w :
    (FindMaterial "floor" [sampleMetal, sampleFloor] emptyMaterial).2.diffuseColor
        = sampleFloor.diffuseColor ∧
    (FindMaterial "floor" [sampleMetal, sampleFloor] emptyMaterial).2.specularColor
        = sampleFloor.specularColor ∧
    (FindMaterial "floor" [sampleMetal, sampleFloor] emptyMaterial).2.shininess
        = sampleFloor.shininess :=
  (FindMaterial_first_occurrence "floor" [sampleMetal, sampleFloor]
      emptyMaterial).2 1 (by decide) (by decide)
    (by
      intro j hj
      have hj0 : j = 0 := by omega
      subst hj0
      show sampleMetal.tag ≠ "floor"
      decide)

/-- C10: `FindMaterial` never writes the ambient color, ambient strength or
tag fields of its out-parameter, and when no registered entry's tag matches
(including the non-empty case where it still returns true) the out-parameter
is left entirely unchanged. -/
theorem FindMaterial_frame (tag : String) (mats : List OBJECT_MATERIAL)
    (m : OBJECT_MATERIAL) :
    ((FindMaterial tag mats m).2.ambientColor = m.ambientColor ∧
     (FindMaterial tag mats m).2.ambientStrength = m.ambientStrength ∧
     (FindMaterial tag mats m).2.tag = m.tag) ∧
    ((∀ e ∈ mats, e.tag ≠ tag) → (FindMaterial tag mats m).2 = m) := by
  by_cases h0 : mats.length = 0
  · simp [FindMaterial, h0]
  · simp only [FindMaterial, h0, if_false]
    exact ⟨FindMaterialScan_untouched tag mats m,
      fun hnm => FindMaterialScan_no_match tag mats m hnm⟩

/-- Witness for C10 at a concrete input: looking up the unmatched tag "lamp"
in a non-empty registry leaves the out-parameter unchanged. -/
theorem FindMaterial_frame_w :
    (FindMaterial "lamp" [sampleMetal] emptyMaterial).2 = emptyMaterial :=
  (FindMaterial_frame "lamp" [sampleMetal] emptyMaterial).2 (by decide)

/-- Concrete texture registry with "wall" registered before "floor",
mirroring the order of `LoadSceneTextures`, used as a concrete witness
input. -/
def wallFloorState : TextureState :=
  ⟨[⟨101, "wall"⟩, ⟨102, "floor"⟩]⟩

/-- Concrete texture registry holding `maxTextures` entries (every slot of
the compile-time array in use), used as a concrete witness input. -/
def fullState : TextureState :=
  ⟨List.replicate maxTextures ⟨1, "t"⟩⟩

lemma FindTextureIDScan_no_match (tag : String) (l : List TEXTURE_INFO)
    (h : ∀ e ∈ l, e.tag ≠ tag) : FindTextureIDScan tag l = -1 := by
  induction l with
  | nil => rfl
  | cons e rest ih =>
    have he : e.tag ≠ tag := h e (List.mem_cons_self e rest)
    simp only [FindTextureIDScan, he, if_false]
    exact ih (fun e' he' => h e' (List.mem_cons_of_mem e he'))

lemma FindTextureIDScan_first_match (tag : String) (l : List TEXTURE_INFO)
    (i : Nat) (h : i < l.length) (htag : (l.get ⟨i, h⟩).tag = tag)
    (hfirst : ∀ j (hj : j < i), (l.get ⟨j, lt_trans hj h⟩).tag ≠ tag) :
    FindTextureIDScan tag l = ((l.get ⟨i, h⟩).ID : Int) := by
  induction l generalizing i with
  | nil => exact absurd h (Nat.not_lt_zero i)
  | cons e rest ih =>
    cases i with
    | zero =>
      simp only [List.get] at htag
      simp [FindTextureIDScan, htag]
    | succ j =>
      have he : e.tag ≠ tag := hfirst 0 (Nat.succ_pos j)
      simp only [FindTextureIDScan, he, if_false]
      exact ih j (Nat.lt_of_succ_lt_succ h) htag
        (fun k hk => hfirst (k + 1) (Nat.succ_lt_succ hk))

lemma FindTextureSlotScan_no_match (tag : String) (l : List TEXTURE_INFO)
    (n : Nat) (h : ∀ e ∈ l, e.tag ≠ tag) : FindTextureSlotScan tag n l = -1 := by
  induction l generalizing n with
  | nil => rfl
  | cons e rest ih =>
    have he : e.tag ≠ tag := h e (List.mem_cons_self e rest)
    simp only [FindTextureSlotScan, he, if_false]
    exact ih (n + 1) (fun e' he' => h e' (List.mem_cons_of_mem e he'))

lemma FindTextureSlotScan_first_match (tag : String) (l : List TEXTURE_INFO)
    (n i : Nat) (h : i < l.length) (htag : (l.get ⟨i, h⟩).tag = tag)
    (hfirst : ∀ j (hj : j < i), (l.get ⟨j, lt_trans hj h⟩).tag ≠ tag) :
    FindTextureSlotScan tag n l = ((n + i : Nat) : Int) := by
  induction l generalizing n i with
  | nil => exact absurd h (Nat.not_lt_zero i)
  | cons e rest ih =>
    cases i with
    | zero =>
      simp only [List.get] at htag
      simp [FindTextureSlotScan, htag]
    | succ j =>
      have he : e.tag ≠ tag := hfirst 0 (Nat.succ_pos j)
      simp only [FindTextureSlotScan, he, if_false]
      have := ih (n + 1) j (Nat.lt_of_succ_lt_succ h) htag
        (fun k hk => hfirst (k + 1) (Nat.succ_lt_succ hk))
      rw [this]
      congr 1
      omega

/-- C4: `FindTextureID` and `FindTextureSlot` scan in registration order and
return the first matching entry's handle and slot index respectively; on a
tag that was never registered both return the sentinel -1. -/
theorem FindTexture_scan_contract (st : TextureState) (tag : String) :
    (∀ i (h : i < st.m_textureIDs.length),
      (st.m_textureIDs.get ⟨i, h⟩).tag = tag →
      (∀ j (hj : j < i), (st.m_textureIDs.get ⟨j, lt_trans hj h⟩).tag ≠ tag) →
        FindTextureID st tag = ((st.m_textureIDs.get ⟨i, h⟩).ID : Int) ∧
        FindTextureSlot st tag = (i : Int)) ∧
    ((∀ e ∈ st.m_textureIDs, e.tag ≠ tag) →
        FindTextureID st tag = -1 ∧ FindTextureSlot st tag = -1) := by
  constructor
  · intro i h htag hfirst
    refine ⟨FindTextureIDScan_first_match tag st.m_textureIDs i h htag hfirst, ?_⟩
    have := FindTextureSlotScan_first_match tag st.m_textureIDs 0 i h htag hfirst
    simpa [FindTextureSlot] using this
  · intro hnone
    exact ⟨FindTextureIDScan_no_match tag st.m_textureIDs hnone,
      FindTextureSlotScan_no_match tag st.m_textureIDs 0 hnone⟩

/-- Witness for C4 at a concrete input: in the wall/floor registry, "floor"
resolves to handle 102 at slot 1, and the unregistered tag "lamp" resolves
to -1 for both lookups. -/
theorem FindTexture_scan_contract_w :
    (FindTextureID wallFloorState "floor" = 102 ∧
     FindTextureSlot wallFloorState "floor" = 1) ∧
    (FindTextureID wallFloorState "lamp" = -1 ∧
     FindTextureSlot wallFloorState "lamp" = -1) :=
  ⟨(FindTexture_scan_contract wallFloorState "floor").1 1 (by decide) (by decide)
      (by
        intro j hj
        have hj0 : j = 0 := by omega
        subst hj0
        show ("wall" : String) ≠ "floor"
        decide),
   (FindTexture_scan_contract wallFloorState "lamp").2 (by decide)⟩

/-- C5: `CreateGLTexture` registers an RGB texture and returns true on a
3-channel decode, registers an RGBA texture and returns true on a 4-channel
decode, and on any other channel count or a failed decode returns false with
the registry unchanged (no entry appended, counter not advanced, nothing
uploaded). -/
theorem CreateGLTexture_channel_contract (img : ImageData) (textureID : Nat)
    (tag : String) (st : TextureState) :
    (img.colorChannels = 3 →
      CreateGLTexture (some img) textureID tag st =
        ⟨true, ⟨st.m_textureIDs ++ [⟨textureID, tag⟩]⟩, some GLFormat.RGB,
          some st.m_textureIDs.length⟩) ∧
    (img.colorChannels = 4 →
      CreateGLTexture (some img) textureID tag st =
        ⟨true, ⟨st.m_textureIDs ++ [⟨textureID, tag⟩]⟩, some GLFormat.RGBA,
          some st.m_textureIDs.length⟩) ∧
    (img.colorChannels ≠ 3 → img.colorChannels ≠ 4 →
      CreateGLTexture (some img) textureID tag st = ⟨false, st, none, none⟩) ∧
    CreateGLTexture none textureID tag st = ⟨false, st, none, none⟩ := by
  refine ⟨fun h3 => ?_, fun h4 => ?_, fun h3 h4 => ?_, rfl⟩
  · simp [CreateGLTexture, h3]
  · norm_num [CreateGLTexture, h4]
  · simp [CreateGLTexture, h3, h4]

/-- Witness for C5 at a concrete input: a 3-channel decode appends the
{handle 7, tag "wall"} entry to the empty registry at index 0 with format
`GL_RGB`. -/
theorem CreateGLTexture_channel_contract_w :
    CreateGLTexture (some ⟨2, 2, 3⟩) 7 "wall" ⟨[]⟩ =
      ⟨true, ⟨[⟨7, "wall"⟩]⟩, some GLFormat.RGB, some 0⟩ :=
  (CreateGLTexture_channel_contract ⟨2, 2, 3⟩ 7 "wall" ⟨[]⟩).1 rfl

/-- C9: on every successful load `CreateGLTexture` writes the new entry at
the array index given by the running counter and increments the counter,
with no capacity check: when the registry already holds `maxTextures`
entries the written index is at or beyond the array bound and the call still
reports success. -/
theorem CreateGLTexture_unguarded_append (img : ImageData) (textureID : Nat)
    (tag : String) (st : TextureState)
    (hch : img.colorChannels = 3 ∨ img.colorChannels = 4) :
    (CreateGLTexture (some img) textureID tag st).result = true ∧
    (CreateGLTexture (some img) textureID tag st).writeIndex =
      some st.m_textureIDs.length ∧
    (CreateGLTexture (some img) textureID tag st).state.m_textureIDs.length =
      st.m_textureIDs.length + 1 ∧
    (maxTextures ≤ st.m_textureIDs.length →
      ∃ n, (CreateGLTexture (some img) textureID tag st).writeIndex = some n ∧
        maxTextures ≤ n) := by
  rcases hch with h | h
  · refine ⟨?_, ?_, ?_, fun hfull => ⟨st.m_textureIDs.length, ?_, hfull⟩⟩ <;>
      simp [CreateGLTexture, h]
  · refine ⟨?_, ?_, ?_, fun hfull => ⟨st.m_textureIDs.length, ?_, hfull⟩⟩ <;>
      norm_num [CreateGLTexture, h]

/-- Witness for C9 at a concrete input: loading a 3-channel image into an
already-full registry (all 16 slots used) still succeeds and writes at the
out-of-bounds index 16. -/
theorem CreateGLTexture_unguarded_append_w :
    (CreateGLTexture (some ⟨2, 2, 3⟩) 7 "over" fullState).result = true ∧
    ∃ n, (CreateGLTexture (some ⟨2, 2, 3⟩) 7 "over" fullState).writeIndex =
        some n ∧ maxTextures ≤ n :=
  ⟨(CreateGLTexture_unguarded_append ⟨2, 2, 3⟩ 7 "over" fullState (Or.inl rfl)).1,
   (CreateGLTexture_unguarded_append ⟨2, 2, 3⟩ 7 "over" fullState
      (Or.inl rfl)).2.2.2 (by decide)⟩

lemma BindGLTexturesGo_length (l : List TEXTURE_INFO) (u : Nat) :
    (BindGLTexturesGo u l).length = l.length := by
  induction l generalizing u with
  | nil => rfl
  | cons e rest ih => simp [BindGLTexturesGo, ih]

lemma BindGLTexturesGo_get (l : List TEXTURE_INFO) (u i : Nat)
    (h1 : i < (BindGLTexturesGo u l).length) (h2 : i < l.length) :
    (BindGLTexturesGo u l).get ⟨i, h1⟩ = (u + i, (l.get ⟨i, h2⟩).ID) := by
  induction l generalizing u i with
  | nil => exact absurd h2 (Nat.not_lt_zero i)
  | cons e rest ih =>
    cases i with
    | zero => simp [BindGLTexturesGo, List.get]
    | succ j =>
      have h1' : j < (BindGLTexturesGo (u + 1) rest).length := by
        simpa [BindGLTexturesGo] using h1
      have h2' : j < rest.length := Nat.lt_of_succ_lt_succ h2
      have := ih (u + 1) j h1' h2'
      simp only [BindGLTexturesGo, List.get]
      rw [this]
      congr 1
      omega

/-- C6: `BindGLTextures` binds every registered texture to sequential
texture units starting at unit 0, in registration order: the i-th binding it
issues pairs unit i with the i-th registered entry's handle. -/
theorem BindGLTextures_sequential_units (st : TextureState) :
    (BindGLTextures st).length = st.m_textureIDs.length ∧
    ∀ i (h1 : i < (BindGLTextures st).length)
        (h2 : i < st.m_textureIDs.length),
      (BindGLTextures st).get ⟨i, h1⟩ = (i, (st.m_textureIDs.get ⟨i, h2⟩).ID) := by
  refine ⟨BindGLTexturesGo_length st.m_textureIDs 0, fun i h1 h2 => ?_⟩
  simpa using BindGLTexturesGo_get st.m_textureIDs 0 i h1 h2

/-- Witness for C6 at a concrete input: after registering "wall" (handle
101) then "floor" (handle 102), unit 0 is bound to 101 and unit 1 to 102. -/
theorem BindGLTextures_sequential_units_w :
    (BindGLTextures wallFloorState).get ⟨0, by decide⟩ = (0, 101) ∧
    (BindGLTextures wallFloorState).get ⟨1, by decide⟩ = (1, 102) :=
  ⟨(BindGLTextures_sequential_units wallFloorState).2 0 (by decide) (by decide),
   (BindGLTextures_sequential_units wallFloorState).2 1 (by decide) (by decide)⟩

lemma DestroyGLTexturesGo_length (newIDs : Nat → Nat) (l : List TEXTURE_INFO)
    (k : Nat) : (DestroyGLTexturesGo newIDs k l).length = l.length := by
  induction l generalizing k with
  | nil => rfl
  | cons e rest ih => simp [DestroyGLTexturesGo, ih]

lemma DestroyGLTexturesGo_get (newIDs : Nat → Nat) (l : List TEXTURE_INFO)
    (k i : Nat) (h1 : i < (DestroyGLTexturesGo newIDs k l).length)
    (h2 : i < l.length) :
    (DestroyGLTexturesGo newIDs k l).get ⟨i, h1⟩ =
      ⟨newIDs (k + i), (l.get ⟨i, h2⟩).tag⟩ := by
  induction l generalizing k i with
  | nil => exact absurd h2 (Nat.not_lt_zero i)
  | cons e rest ih =>
    cases i with
    | zero => simp [DestroyGLTexturesGo, List.get]
    | succ j =>
      have h1' : j < (DestroyGLTexturesGo newIDs (k + 1) rest).length := by
        simpa [DestroyGLTexturesGo] using h1
      have h2' : j < rest.length := Nat.lt_of_succ_lt_succ h2
      have := ih (k + 1) j h1' h2'
      simp only [DestroyGLTexturesGo, List.get]
      rw [this]
      congr 2
      omega

/-- C8: `DestroyGLTextures` overwrites every registered entry's ID field
with a freshly generated handle (the i-th slot receives the i-th
`glGenTextures` result), passes no handle to `glDeleteTextures`, and leaves
the registered-texture count and every tag unchanged. -/
theorem DestroyGLTextures_regenerates (newIDs : Nat → Nat) (st : TextureState) :
    (DestroyGLTextures newIDs st).2 = [] ∧
    (DestroyGLTextures newIDs st).1.m_textureIDs.length =
      st.m_textureIDs.length ∧
    ∀ i (h1 : i < (DestroyGLTextures newIDs st).1.m_textureIDs.length)
        (h2 : i < st.m_textureIDs.length),
      ((DestroyGLTextures newIDs st).1.m_textureIDs.get ⟨i, h1⟩).ID = newIDs i ∧
      ((DestroyGLTextures newIDs st).1.m_textureIDs.get ⟨i, h1⟩).tag =
        (st.m_textureIDs.get ⟨i, h2⟩).tag := by
  refine ⟨rfl, DestroyGLTexturesGo_length newIDs st.m_textureIDs 0,
    fun i h1 h2 => ?_⟩
  have hg := DestroyGLTexturesGo_get newIDs st.m_textureIDs 0 i h1 h2
  simp only [Nat.zero_add] at hg
  constructor
  · show ((DestroyGLTexturesGo newIDs 0 st.m_textureIDs).get ⟨i, h1⟩).ID = newIDs i
    rw [hg]
  · show ((DestroyGLTexturesGo newIDs 0 st.m_textureIDs).get ⟨i, h1⟩).tag =
      (st.m_textureIDs.get ⟨i, h2⟩).tag
    rw [hg]

/-- Witness for C8 at a concrete input: tearing down the wall/floor registry
with generated handles 200, 201 leaves both tags in place, stores the new
handles, and deletes nothing. -/
theorem DestroyGLTextures_regenerates_w :
    (DestroyGLTextures (fun i => 200 + i) wallFloorState).2 = [] ∧
    ((DestroyGLTextures (fun i => 200 + i)
        wallFloorState).1.m_textureIDs.get ⟨0, by decide⟩).ID = 200 ∧
    ((DestroyGLTextures (fun i => 200 + i)
        wallFloorState).1.m_textureIDs.get ⟨1, by decide⟩).tag = "floor" :=
  ⟨(DestroyGLTextures_regenerates (fun i => 200 + i) wallFloorState).1,
   ((DestroyGLTextures_regenerates (fun i => 200 + i) wallFloorState).2.2 0
      (by decide) (by decide)).1,
   ((DestroyGLTextures_regenerates (fun i => 200 + i) wallFloorState).2.2 1
      (by decide) (by decide)).2⟩

noncomputable section

/-- Homogeneous 4x4 matrix over the reals, the embedding of `glm::mat4`
(glm composes with `*` and transforms column vectors, matching the
mathematical convention used here). -/
abbrev Mat4 := Matrix (Fin 4) (Fin 4) ℝ

/-- Embedding of `glm::radians`: degrees times pi over 180. -/
def radians (degrees : ℝ) : ℝ := degrees * (Real.pi / 180)

/-- Embedding of `glm::scale(scaleXYZ)` (SceneManager.cpp:264): the diagonal
scaling matrix. -/
def scaleMat (v : Vec3 ℝ) : Mat4 :=
  !![v.x, 0, 0, 0;
     0, v.y, 0, 0;
     0, 0, v.z, 0;
     0, 0, 0, 1]

/-- Embedding of `glm::rotate(angle, vec3(1,0,0))` (SceneManager.cpp:266):
rotation about the X axis. -/
def rotateXMat (θ : ℝ) : Mat4 :=
  !![1, 0, 0, 0;
     0, Real.cos θ, -Real.sin θ, 0;
     0, Real.sin θ, Real.cos θ, 0;
     0, 0, 0, 1]

/-- Embedding of `glm::rotate(angle, vec3(0,1,0))` (SceneManager.cpp:267):
rotation about the Y axis. -/
def rotateYMat (θ : ℝ) : Mat4 :=
  !![Real.cos θ, 0, Real.sin θ, 0;
     0, 1, 0, 0;
     -Real.sin θ, 0, Real.cos θ, 0;
     0, 0, 0, 1]

/-- Embedding of `glm::rotate(angle, vec3(0,0,1))` (SceneManager.cpp:268):
rotation about the Z axis. -/
def rotateZMat (θ : ℝ) : Mat4 :=
  !![Real.cos θ, -Real.sin θ, 0, 0;
     Real.sin θ, Real.cos θ, 0, 0;
     0, 0, 1, 0;
     0, 0, 0, 1]

/-- Embedding of `glm::translate(positionXYZ)` (SceneManager.cpp:270): the
translation matrix. -/
def translateMat (v : Vec3 ℝ) : Mat4 :=
  !![1, 0, 0, v.x;
     0, 1, 0, v.y;
     0, 0, 1, v.z;
     0, 0, 0, 1]

/-- Embedding of `SceneManager::SetTransformations`
(SceneManager.cpp:248-278): the model matrix it computes and pushes to the
shader, `modelView = translation * rotationZ * rotationY * rotationX *
scale` with the rotation angles converted from degrees to radians. -/
def SetTransformations (scaleXYZ : Vec3 ℝ)
    (XrotationDegrees YrotationDegrees ZrotationDegrees : ℝ)
    (positionXYZ : Vec3 ℝ) : Mat4 :=
  translateMat positionXYZ * rotateZMat (radians ZrotationDegrees) *
    rotateYMat (radians YrotationDegrees) *
    rotateXMat (radians XrotationDegrees) * scaleMat scaleXYZ

/-- Componentwise scaling of a point, the geometric action of `scaleMat`. -/
def scaleVec (s q : Vec3 ℝ) : Vec3 ℝ :=
  ⟨s.x * q.x, s.y * q.y, s.z * q.z⟩

/-- Rotation of a point about the X axis, the geometric action of
`rotateXMat`. -/
def rotateXVec (θ : ℝ) (q : Vec3 ℝ) : Vec3 ℝ :=
  ⟨q.x, Real.cos θ * q.y - Real.sin θ * q.z,
    Real.sin θ * q.y + Real.cos θ * q.z⟩

/-- Rotation of a point about the Y axis, the geometric action of
`rotateYMat`. -/
def rotateYVec (θ : ℝ) (q : Vec3 ℝ) : Vec3 ℝ :=
  ⟨Real.cos θ * q.x + Real.sin θ * q.z, q.y,
    -Real.sin θ * q.x + Real.cos θ * q.z⟩

/-- Rotation of a point about the Z axis, the geometric action of
`rotateZMat`. -/
def rotateZVec (θ : ℝ) (q : Vec3 ℝ) : Vec3 ℝ :=
  ⟨Real.cos θ * q.x - Real.sin θ * q.y,
    Real.sin θ * q.x + Real.cos θ * q.y, q.z⟩

/-- Translation of a point, the geometric action of `translateMat`. -/
def translateVec (t q : Vec3 ℝ) : Vec3 ℝ :=
  ⟨t.x + q.x, t.y + q.y, t.z + q.z⟩

/-- Homogeneous coordinates of a point, with fourth component 1. -/
def toHom (q : Vec3 ℝ) : Fin 4 → ℝ := ![q.x, q.y, q.z, 1]

lemma scaleMat_mulVec (s q : Vec3 ℝ) :
    Matrix.mulVec (scaleMat s) (toHom q) = toHom (scaleVec s q) := by
  funext i
  fin_cases i
  all_goals
    simp [scaleMat, scaleVec, toHom, Matrix.mulVec, Matrix.dotProduct,
      Fin.sum_univ_four]

lemma rotateXMat_mulVec (θ : ℝ) (q : Vec3 ℝ) :
    Matrix.mulVec (rotateXMat θ) (toHom q) = toHom (rotateXVec θ q) := by
  funext i
  fin_cases i
  all_goals
    simp [rotateXMat, rotateXVec, toHom, Matrix.mulVec, Matrix.dotProduct,
      Fin.sum_univ_four]
  all_goals ring

lemma rotateYMat_mulVec (θ : ℝ) (q : Vec3 ℝ) :
    Matrix.mulVec (rotateYMat θ) (toHom q) = toHom (rotateYVec θ q) := by
  funext i
  fin_cases i
  all_goals
    simp [rotateYMat, rotateYVec, toHom, Matrix.mulVec, Matrix.dotProduct,
      Fin.sum_univ_four]

lemma rotateZMat_mulVec (θ : ℝ) (q : Vec3 ℝ) :
    Matrix.mulVec (rotateZMat θ) (toHom q) = toHom (rotateZVec θ q) := by
  funext i
  fin_cases i
  all_goals
    simp [rotateZMat, rotateZVec, toHom, Matrix.mulVec, Matrix.dotProduct,
      Fin.sum_univ_four]
  all_goals ring

lemma translateMat_mulVec (t q : Vec3 ℝ) :
    Matrix.mulVec (translateMat t) (toHom q) = toHom (translateVec t q) := by
  funext i
  fin_cases i
  all_goals
    simp [translateMat, translateVec, toHom, Matrix.mulVec, Matrix.dotProduct,
      Fin.sum_univ_four]
  all_goals ring

/-- C2: the model matrix built by `SetTransformations` acts on every point as
scale first, then rotation about X, then Y, then Z, then translation — i.e.
it is the product translate * rotateZ * rotateY * rotateX * scale with
translation outermost and scale innermost, for every input. -/
theorem SetTransformations_compose_order (s : Vec3 ℝ) (xr yr zr : ℝ)
    (t q : Vec3 ℝ) :
    Matrix.mulVec (SetTransformations s xr yr zr t) (toHom q) =
      toHom (translateVec t (rotateZVec (radians zr) (rotateYVec (radians yr)
        (rotateXVec (radians xr) (scaleVec s q))))) := by
  rw [SetTransformations, ← Matrix.mulVec_mulVec, ← Matrix.mulVec_mulVec,
    ← Matrix.mulVec_mulVec, ← Matrix.mulVec_mulVec, scaleMat_mulVec,
    rotateXMat_mulVec, rotateYMat_mulVec, rotateZMat_mulVec,
    translateMat_mulVec]

lemma radians_zero : radians 0 = 0 := by
  simp [radians]

lemma scaleMat_one : scaleMat ⟨1, 1, 1⟩ = 1 := by
  ext i j
  fin_cases i <;> fin_cases j <;>
    simp [scaleMat, Matrix.one_apply, Matrix.vecHead, Matrix.vecTail]

lemma rotateXMat_zero : rotateXMat 0 = 1 := by
  ext i j
  fin_cases i <;> fin_cases j <;>
    simp [rotateXMat, Matrix.one_apply, Matrix.vecHead, Matrix.vecTail]

lemma rotateYMat_zero : rotateYMat 0 = 1 := by
  ext i j
  fin_cases i <;> fin_cases j <;>
    simp [rotateYMat, Matrix.one_apply, Matrix.vecHead, Matrix.vecTail]

lemma rotateZMat_zero : rotateZMat 0 = 1 := by
  ext i j
  fin_cases i <;> fin_cases j <;>
    simp [rotateZMat, Matrix.one_apply, Matrix.vecHead, Matrix.vecTail]

lemma translateMat_zero : translateMat ⟨0, 0, 0⟩ = 1 := by
  ext i j
  fin_cases i <;> fin_cases j <;>
    simp [translateMat, Matrix.one_apply, Matrix.vecHead, Matrix.vecTail]

/-- C7: `SetTransformations` with scale (1,1,1), all rotation angles 0, and
translation (0,0,0) produces the 4x4 identity matrix. -/
theorem SetTransformations_identity :
    SetTransformations ⟨1, 1, 1⟩ 0 0 0 ⟨0, 0, 0⟩ = 1 := by
  rw [SetTransformations, radians_zero, rotateXMat_zero, rotateYMat_zero,
    rotateZMat_zero, scaleMat_one, translateMat_zero]
  simp

end

end SceneMgr
